import Mathlib

/-!
Verification of the InsightX backend core services against their
natural-language specification.

This file shallowly embeds the relevant parts of the Python sources:

* `services/key_manager.py`    — `KeyManager` (credential pool)
* `services/bytez_client.py`   — `BytezClient.chat_completions` retry loop
* `services/sql_executor.py`   — `validate_sql`, `run_sql`
* `services/python_executor.py`— `ASTValidator`, `validate_python_code`,
                                 `run_python`, `create_safe_python_wrapper`
* `services/orchestrator.py`   — `Orchestrator.stream_chat`

External effects (HTTP, Supabase, DuckDB, `subprocess`, `ast.parse`,
`json.loads`, the system clock) are modelled as explicit environment
("oracle") parameters; the repository's own control flow and pure
computations are translated directly.  Machine details that cannot affect
the verified properties (timestamps inside diagnostic events, the exact
bytes of downloaded files) are noted where they are elided.
-/

/-- A Python exception value, identified by its class and its message
(`str(e)` in the source). -/
inductive PyErr where
  | runtimeError (msg : String)
  | valueError (msg : String)
  | indexError (msg : String)
  | requestError (msg : String)
deriving DecidableEq, Repr

/-- `str(e)` for the modelled exception classes. -/
def PyErr.msg : PyErr → String
  | .runtimeError m => m
  | .valueError m => m
  | .indexError m => m
  | .requestError m => m

deriving instance DecidableEq for Except

/-! ## key_manager.py -/

/-- The `last_rotation_event` dicts built by `KeyManager`.  The
`timestamp` entry (from `datetime.utcnow()`, an external clock) is
omitted; every other entry is kept. -/
inductive RotEvent where
  | key_failed (key_index : Nat) (reason : String) (usage_count error_count : Nat)
  | key_rotated (from_index to_index : Nat)
  | all_keys_exhausted (total_keys : Nat)
deriving DecidableEq, Repr

/-- State of a `KeyManager` instance.  `failed_keys` (a Python `set`) is
modelled as a duplicate-free-by-insertion list, used only through
membership; `usage_count` and `error_count` (Python dicts initialised
with every key present by `_load_keys`) are modelled as total maps. -/
structure KMState where
  keys : List String
  current_key_index : Nat
  failed_keys : List String
  usage_count : String → Nat
  error_count : String → Nat
  last_rotation_event : Option RotEvent

/-- `KeyManager.get_current_key`. -/
def get_current_key (s : KMState) : Except PyErr String :=
  if s.keys.length ≤ s.current_key_index then
    .error (.runtimeError "All API keys exhausted")
  else
    let current_key := s.keys.getD s.current_key_index ""
    if current_key ∈ s.failed_keys then
      .error (.runtimeError ("Current key (index " ++ toString s.current_key_index ++
        ") is marked as failed. Call rotate_key() to advance."))
    else
      .ok current_key

/-- `KeyManager.mark_current_key_failed`.  The first line of the source,
`self.keys[self.current_key_index]`, raises `IndexError` when the index
is past the end of the list; no state is mutated in that case. -/
def mark_current_key_failed (s : KMState) (reason : String) : Except PyErr KMState :=
  match s.keys.get? s.current_key_index with
  | none => .error (.indexError "list index out of range")
  | some current_key =>
    .ok { s with
      failed_keys :=
        if current_key ∈ s.failed_keys then s.failed_keys else current_key :: s.failed_keys,
      error_count :=
        fun k => if k = current_key then s.error_count k + 1 else s.error_count k,
      last_rotation_event :=
        some (.key_failed s.current_key_index reason (s.usage_count current_key)
          (s.error_count current_key + 1)) }

/-- The `while` loop of `KeyManager.rotate_key`, scanning the key list
from index `i` (represented by the suffix `rest = keys.drop i`):
advance past failed keys; returns the final index and whether a healthy
key was found. -/
def rotateScan (failed : List String) (i : Nat) : List String → Nat × Bool
  | [] => (i, false)
  | k :: rest => if k ∈ failed then rotateScan failed (i + 1) rest else (i, true)

/-- The `while` loop of `KeyManager.rotate_key` started at index `i`. -/
def rotateFrom (keys failed : List String) (i : Nat) : Nat × Bool :=
  rotateScan failed i (keys.drop i)

/-- `KeyManager.rotate_key`. -/
def rotate_key (s : KMState) : KMState × Bool :=
  let start_index := s.current_key_index
  let r := rotateFrom s.keys s.failed_keys (s.current_key_index + 1)
  if r.2 then
    ({ s with
        current_key_index := r.1
        last_rotation_event := some (.key_rotated start_index r.1) }, true)
  else
    ({ s with
        current_key_index := r.1
        last_rotation_event := some (.all_keys_exhausted s.keys.length) }, false)

/-- `KeyManager.record_success`.  `self.keys[self.current_key_index]`
raises `IndexError` when the pool is exhausted; otherwise the usage
count of the current key is incremented. -/
def record_success (s : KMState) : Except PyErr KMState :=
  match s.keys.get? s.current_key_index with
  | none => .error (.indexError "list index out of range")
  | some current_key =>
    .ok { s with
      usage_count :=
        fun k => if k = current_key then s.usage_count k + 1 else s.usage_count k }

/-- One public pool operation of `KeyManager`. -/
inductive PoolOp where
  | getCurrent
  | markFailed (reason : String)
  | rotate
  | recordSuccess

/-- The state transition of one pool operation.  An operation that
raises (`IndexError` on an exhausted pool) leaves the state unchanged,
which matches the source: the failing subscript is evaluated before any
mutation. -/
def applyOp (s : KMState) : PoolOp → KMState
  | .getCurrent => s
  | .markFailed reason =>
    match mark_current_key_failed s reason with
    | .ok s2 => s2
    | .error _ => s
  | .rotate => (rotate_key s).1
  | .recordSuccess =>
    match record_success s with
    | .ok s2 => s2
    | .error _ => s

/-! ### Helper lemmas about the pool operations -/

theorem applyOp_keys_eq (s : KMState) (op : PoolOp) : (applyOp s op).keys = s.keys := by
  cases op with
  | getCurrent => rfl
  | markFailed reason =>
    unfold applyOp mark_current_key_failed
    cases s.keys.get? s.current_key_index <;> simp
  | rotate =>
    unfold applyOp rotate_key
    by_cases h : (rotateFrom s.keys s.failed_keys (s.current_key_index + 1)).2 <;> simp [h]
  | recordSuccess =>
    unfold applyOp record_success
    cases s.keys.get? s.current_key_index <;> simp

theorem rotateScan_idx_ge (failed : List String) (i : Nat) (l : List String) :
    i ≤ (rotateScan failed i l).1 := by
  induction l generalizing i with
  | nil => simp [rotateScan]
  | cons k rest ih =>
    unfold rotateScan
    by_cases h : k ∈ failed
    · simpa [h] using le_trans (Nat.le_succ i) (ih (i + 1))
    · simp [h]

theorem rotateFrom_idx_ge (keys failed : List String) (i : Nat) :
    i ≤ (rotateFrom keys failed i).1 :=
  rotateScan_idx_ge failed i (keys.drop i)

theorem rotateScan_found (failed : List String) (i : Nat) (l : List String)
    (h : (rotateScan failed i l).2 = true) :
    ∃ j k, (rotateScan failed i l).1 = i + j ∧ l.get? j = some k ∧ k ∉ failed := by
  induction l generalizing i with
  | nil => simp [rotateScan] at h
  | cons k rest ih =>
    by_cases hk : k ∈ failed
    · have h2 : (rotateScan failed (i + 1) rest).2 = true := by
        simpa [rotateScan, hk] using h
      obtain ⟨j, k0, hj, hget, hnf⟩ := ih (i + 1) h2
      refine ⟨j + 1, k0, ?_, by simpa using hget, hnf⟩
      have heq : (rotateScan failed i (k :: rest)).1 = (rotateScan failed (i + 1) rest).1 := by
        simp [rotateScan, hk]
      omega
    · exact ⟨0, k, by simp [rotateScan, hk], by simp, hk⟩

theorem rotateFrom_exhausted (keys failed : List String) (i : Nat)
    (h : keys.length ≤ i) : rotateFrom keys failed i = (i, false) := by
  unfold rotateFrom
  rw [List.drop_eq_nil_of_le h]
  rfl

theorem rotate_key_snd (s : KMState) :
    (rotate_key s).2 = (rotateFrom s.keys s.failed_keys (s.current_key_index + 1)).2 := by
  by_cases h : (rotateFrom s.keys s.failed_keys (s.current_key_index + 1)).2 <;>
    simp [rotate_key, h]

theorem rotate_key_fst_keys (s : KMState) : (rotate_key s).1.keys = s.keys := by
  by_cases h : (rotateFrom s.keys s.failed_keys (s.current_key_index + 1)).2 <;>
    simp [rotate_key, h]

theorem rotate_key_fst_idx (s : KMState) :
    (rotate_key s).1.current_key_index =
      (rotateFrom s.keys s.failed_keys (s.current_key_index + 1)).1 := by
  by_cases h : (rotateFrom s.keys s.failed_keys (s.current_key_index + 1)).2 <;>
    simp [rotate_key, h]

theorem rotate_key_fst_failed (s : KMState) :
    (rotate_key s).1.failed_keys = s.failed_keys := by
  by_cases h : (rotateFrom s.keys s.failed_keys (s.current_key_index + 1)).2 <;>
    simp [rotate_key, h]

theorem applyOp_idx_le (s : KMState) (op : PoolOp) :
    s.current_key_index ≤ (applyOp s op).current_key_index := by
  cases op with
  | getCurrent => exact le_refl _
  | markFailed reason =>
    unfold applyOp mark_current_key_failed
    cases s.keys.get? s.current_key_index <;> simp
  | rotate =>
    unfold applyOp rotate_key
    have h1 := rotateFrom_idx_ge s.keys s.failed_keys (s.current_key_index + 1)
    by_cases h : (rotateFrom s.keys s.failed_keys (s.current_key_index + 1)).2 <;>
      simp [h] <;> omega
  | recordSuccess =>
    unfold applyOp record_success
    cases s.keys.get? s.current_key_index <;> simp

theorem applyOp_failed_mono (s : KMState) (op : PoolOp) (k : String)
    (hk : k ∈ s.failed_keys) : k ∈ (applyOp s op).failed_keys := by
  cases op with
  | getCurrent => exact hk
  | markFailed reason =>
    unfold applyOp mark_current_key_failed
    cases s.keys.get? s.current_key_index with
    | none => exact hk
    | some key =>
      by_cases h : key ∈ s.failed_keys <;> simp [h, hk]
  | rotate =>
    unfold applyOp rotate_key
    by_cases h : (rotateFrom s.keys s.failed_keys (s.current_key_index + 1)).2 <;>
      simp [h, hk]
  | recordSuccess =>
    unfold applyOp record_success
    cases s.keys.get? s.current_key_index <;> simp [hk]

theorem foldl_applyOp_keys_eq (s : KMState) (ops : List PoolOp) :
    (ops.foldl applyOp s).keys = s.keys := by
  induction ops generalizing s with
  | nil => rfl
  | cons op ops ih => simp [List.foldl, ih, applyOp_keys_eq]

theorem foldl_applyOp_idx_le (s : KMState) (ops : List PoolOp) :
    s.current_key_index ≤ (ops.foldl applyOp s).current_key_index := by
  induction ops generalizing s with
  | nil => exact le_refl _
  | cons op ops ih =>
    exact le_trans (applyOp_idx_le s op) (ih (applyOp s op))

theorem foldl_applyOp_failed_mono (s : KMState) (ops : List PoolOp) (k : String)
    (hk : k ∈ s.failed_keys) : k ∈ (ops.foldl applyOp s).failed_keys := by
  induction ops generalizing s with
  | nil => exact hk
  | cons op ops ih =>
    exact ih (applyOp s op) (applyOp_failed_mono s op k hk)

/-! ### Claim theorems about the credential pool -/

/-- C7: Across every sequence of pool operations (`get_current_key`,
`mark_current_key_failed`, `rotate_key`, `record_success`) on a
`KeyManager` instance, the current index is monotonically non-decreasing
and no credential, once added to the failed set, is ever removed. -/
theorem key_manager_monotone (s : KMState) (ops : List PoolOp) :
    s.current_key_index ≤ (ops.foldl applyOp s).current_key_index ∧
    ∀ k ∈ s.failed_keys, k ∈ (ops.foldl applyOp s).failed_keys :=
  ⟨foldl_applyOp_idx_le s ops, fun k hk => foldl_applyOp_failed_mono s ops k hk⟩

/-- C6: Whenever `rotate_key` returns true, the credential at the
resulting current index is not in the failed set; and once the pool is
exhausted (index past the last credential), every subsequent
`rotate_key` call — after any interleaving of pool operations — returns
false. -/
theorem rotate_key_sound (s : KMState) :
    ((rotate_key s).2 = true →
      ∃ k, (rotate_key s).1.keys.get? (rotate_key s).1.current_key_index = some k ∧
        k ∉ (rotate_key s).1.failed_keys) ∧
    (s.keys.length ≤ s.current_key_index →
      ∀ ops : List PoolOp, (rotate_key (ops.foldl applyOp s)).2 = false) := by
  constructor
  · intro h
    by_cases hb : (rotateFrom s.keys s.failed_keys (s.current_key_index + 1)).2
    · obtain ⟨j, k, hj, hget, hnf⟩ :=
        rotateScan_found s.failed_keys (s.current_key_index + 1)
          (s.keys.drop (s.current_key_index + 1)) hb
      refine ⟨k, ?_, ?_⟩
      · have h1 : (rotate_key s).1.keys = s.keys := by simp [rotate_key, hb]
        have h2 : (rotate_key s).1.current_key_index =
            (rotateFrom s.keys s.failed_keys (s.current_key_index + 1)).1 := by
          simp [rotate_key, hb]
        rw [h1, h2]
        rw [show (rotateFrom s.keys s.failed_keys (s.current_key_index + 1)).1 =
          s.current_key_index + 1 + j from hj]
        rw [← List.get?_drop]
        exact hget
      · have h3 : (rotate_key s).1.failed_keys = s.failed_keys := by
          simp [rotate_key, hb]
        rw [h3]
        exact hnf
    · exact absurd h (by simp [rotate_key, hb])
  · intro hex ops
    have hk : (ops.foldl applyOp s).keys = s.keys := foldl_applyOp_keys_eq s ops
    have hi : s.current_key_index ≤ (ops.foldl applyOp s).current_key_index :=
      foldl_applyOp_idx_le s ops
    have hlen : (ops.foldl applyOp s).keys.length ≤
        (ops.foldl applyOp s).current_key_index + 1 := by
      rw [hk]; omega
    simp [rotate_key, rotateFrom_exhausted _ _ _ hlen]

/-- C9: On an exhausted pool (current index at or past the end of the
key list), `get_current_key` raises the dedicated `RuntimeError`, while
`mark_current_key_failed` and `record_success` fail with an uncaught
`IndexError` from the list subscript: they have no exhaustion guard. -/
theorem exhausted_pool_partial_ops (s : KMState) (reason : String)
    (h : s.keys.length ≤ s.current_key_index) :
    get_current_key s = .error (.runtimeError "All API keys exhausted") ∧
    mark_current_key_failed s reason = .error (.indexError "list index out of range") ∧
    record_success s = .error (.indexError "list index out of range") := by
  have hget : s.keys.get? s.current_key_index = none := List.get?_eq_none.mpr h
  refine ⟨?_, ?_, ?_⟩
  · unfold get_current_key
    rw [if_pos h]
  · unfold mark_current_key_failed
    rw [hget]
  · unfold record_success
    rw [hget]

/-- A concrete exhausted pool: one key, already rotated past. -/
def kmExhausted : KMState where
  keys := ["k1"]
  current_key_index := 1
  failed_keys := ["k1"]
  usage_count := fun _ => 0
  error_count := fun _ => 0
  last_rotation_event := none

/-- A concrete healthy two-key pool with the first key failed. -/
def kmTwoF : KMState where
  keys := ["k1", "k2"]
  current_key_index := 0
  failed_keys := ["k1"]
  usage_count := fun _ => 0
  error_count := fun _ => 0
  last_rotation_event := none

theorem exhausted_pool_partial_ops_witness :
    get_current_key kmExhausted = .error (.runtimeError "All API keys exhausted") ∧
    mark_current_key_failed kmExhausted "x" = .error (.indexError "list index out of range") ∧
    record_success kmExhausted = .error (.indexError "list index out of range") :=
  exhausted_pool_partial_ops kmExhausted "x" (by decide)

theorem key_manager_monotone_witness :
    kmTwoF.current_key_index ≤
      (([PoolOp.markFailed "e", PoolOp.rotate].foldl applyOp kmTwoF)).current_key_index ∧
    "k1" ∈ ([PoolOp.markFailed "e", PoolOp.rotate].foldl applyOp kmTwoF).failed_keys :=
  ⟨(key_manager_monotone kmTwoF [PoolOp.markFailed "e", PoolOp.rotate]).1,
   (key_manager_monotone kmTwoF [PoolOp.markFailed "e", PoolOp.rotate]).2 "k1" (by decide)⟩

theorem rotate_key_sound_witness :
    (∃ k, (rotate_key kmTwoF).1.keys.get? (rotate_key kmTwoF).1.current_key_index = some k ∧
      k ∉ (rotate_key kmTwoF).1.failed_keys) ∧
    (rotate_key ([PoolOp.rotate].foldl applyOp kmExhausted)).2 = false :=
  ⟨(rotate_key_sound kmTwoF).1 (by decide),
   (rotate_key_sound kmExhausted).2 (by decide) [PoolOp.rotate]⟩

/-! ## bytez_client.py -/

/-- `message` object inside a chat-completions choice. -/
structure BytezMessage where
  content : String
deriving DecidableEq, Repr

/-- One element of the `choices` array. -/
structure BytezChoice where
  message : BytezMessage
deriving DecidableEq, Repr

/-- The JSON body of a chat-completions response, as consumed by the
repository: only the optional `choices` array is ever read
(`_run_agent` checks `"choices" in response`). -/
structure BytezResp where
  choices : Option (List BytezChoice)
deriving DecidableEq, Repr

/-- Outcome of one network attempt (`self.client.post`), decided by the
environment: an HTTP 200 with a parsed JSON body, a non-200 status with
its `response.text`, or an `httpx.RequestError`. -/
inductive AttemptOutcome where
  | success (resp : BytezResp)
  | httpError (code : Nat) (body : String)
  | requestFailed (msg : String)

/-- The shared mark-rotate-refresh path of
`BytezClient._handle_error_and_retry` (the client refresh itself is an
external effect with no observable state here). -/
def rotate_and_refresh (s : KMState) (reason : String) : Except PyErr (Bool × KMState) :=
  match mark_current_key_failed s reason with
  | .error e => .error e
  | .ok s1 =>
    let r := rotate_key s1
    .ok (r.2, r.1)

/-- `BytezClient._handle_error_and_retry`. -/
def handle_error_and_retry (status_code : Nat) (s : KMState) : Except PyErr (Bool × KMState) :=
  if status_code = 401 ∨ status_code = 403 then
    rotate_and_refresh s (toString status_code ++ " Unauthorized/Forbidden")
  else if status_code = 429 then
    rotate_and_refresh s "429 Rate Limited"
  else if 500 ≤ status_code then
    rotate_and_refresh s (toString status_code ++ " Server Error")
  else
    .ok (false, s)

/-- The `while retry_count < max_retries` loop of
`BytezClient.chat_completions`.  The fuel argument is the number of
remaining retries (`max_retries - retry_count`); `attempt` numbers the
network attempts so the environment can answer each one.  Returns the
call's result, the number of network attempts performed, and the final
pool state.  Exceptions raised by `record_success` or
`mark_current_key_failed` propagate (the `except` clause in the source
only catches `httpx.RequestError`). -/
def chatLoop (oracle : Nat → AttemptOutcome) (s : KMState) (attempt : Nat) :
    Nat → Except PyErr BytezResp × Nat × KMState
  | 0 => (.error (.runtimeError "All API keys exhausted after retries"), 0, s)
  | fuel + 1 =>
    match oracle attempt with
    | .success resp =>
      match record_success s with
      | .ok s2 => (.ok resp, 1, s2)
      | .error e => (.error e, 1, s)
    | .requestFailed m =>
      (.error (.runtimeError ("Bytez API request failed: " ++ m)), 1, s)
    | .httpError code body =>
      match handle_error_and_retry code s with
      | .error e => (.error e, 1, s)
      | .ok (true, s2) =>
        let r := chatLoop oracle s2 (attempt + 1) fuel
        (r.1, r.2.1 + 1, r.2.2)
      | .ok (false, s2) =>
        (.error (.runtimeError ("Bytez API error " ++ toString code ++ ": " ++ body)), 1, s2)

/-- `BytezClient.chat_completions` over its key-manager state.  The
request payload (`model`, `messages`, `temperature`, `max_tokens`,
`tools`, `stream`) only shapes the HTTP request, which the environment
answers; `max_retries` is `len(self.key_manager.keys)`. -/
def chat_completions (oracle : Nat → AttemptOutcome) (s : KMState) :
    Except PyErr BytezResp × Nat × KMState :=
  chatLoop oracle s 0 s.keys.length

/-- Evolution of one all-401 retry round: marking the current key and
rotating advances the index by one and grows the failed set by exactly
the current key. -/
theorem handle_error_401_step (keys : List String) (hnd : keys.Nodup)
    (i : Nat) (hi : i < keys.length) (s : KMState)
    (hk : s.keys = keys) (hidx : s.current_key_index = i)
    (hinv : ∀ j (hj : j < keys.length), (keys.get ⟨j, hj⟩ ∈ s.failed_keys ↔ j < i)) :
    ∃ s2, handle_error_and_retry 401 s = .ok ((i + 1 < keys.length : Bool), s2) ∧
      s2.keys = keys ∧ s2.current_key_index = i + 1 ∧
      ∀ j (hj : j < keys.length), (keys.get ⟨j, hj⟩ ∈ s2.failed_keys ↔ j < i + 1) := by
  have hgets : s.keys.get? s.current_key_index = some (keys.get ⟨i, hi⟩) := by
    rw [hk, hidx]; exact List.get?_eq_get hi
  have hnotmem : keys.get ⟨i, hi⟩ ∉ s.failed_keys := by
    rw [hinv i hi]; omega
  have hinj : Function.Injective keys.get := List.nodup_iff_injective_get.mp hnd
  -- the state after mark_current_key_failed
  have hmark : mark_current_key_failed s "401 Unauthorized/Forbidden" =
      .ok { s with
        failed_keys := keys.get ⟨i, hi⟩ :: s.failed_keys
        error_count := fun k =>
          if k = keys.get ⟨i, hi⟩ then s.error_count k + 1 else s.error_count k
        last_rotation_event := some (.key_failed s.current_key_index
          "401 Unauthorized/Forbidden" (s.usage_count (keys.get ⟨i, hi⟩))
          (s.error_count (keys.get ⟨i, hi⟩) + 1)) } := by
    simp only [mark_current_key_failed, hgets]
    rw [if_neg hnotmem]
  have hfailed1 : ∀ j (hj : j < keys.length),
      (keys.get ⟨j, hj⟩ ∈ keys.get ⟨i, hi⟩ :: s.failed_keys ↔ j < i + 1) := by
    intro j hj
    constructor
    · intro hmem
      rcases List.mem_cons.mp hmem with heq | hmem2
      · have hfin : (⟨j, hj⟩ : Fin keys.length) = ⟨i, hi⟩ := hinj heq
        have hji : j = i := by simpa using hfin
        omega
      · have hji : j < i := (hinv j hj).mp hmem2
        omega
    · intro hji
      rcases Nat.lt_or_ge j i with hj2 | hj2
      · exact List.mem_cons.mpr (Or.inr ((hinv j hj).mpr hj2))
      · have hje : j = i := by omega
        subst hje
        exact List.mem_cons.mpr (Or.inl rfl)
  obtain ⟨s1, hm1, hk1, hi1, hf1⟩ :
      ∃ s1, mark_current_key_failed s "401 Unauthorized/Forbidden" = .ok s1 ∧
        s1.keys = keys ∧ s1.current_key_index = i ∧
        s1.failed_keys = keys.get ⟨i, hi⟩ :: s.failed_keys :=
    ⟨_, hmark, by simp [hk], by simp [hidx], rfl⟩
  have hh : handle_error_and_retry 401 s = .ok ((rotate_key s1).2, (rotate_key s1).1) := by
    simp only [handle_error_and_retry]
    rw [if_pos (Or.inl trivial)]
    simp only [rotate_and_refresh]
    rw [show (toString (401 : Nat) ++ " Unauthorized/Forbidden") = "401 Unauthorized/Forbidden"
      from rfl]
    rw [hm1]
  have hsnd : (rotate_key s1).2 =
      (rotateFrom keys (keys.get ⟨i, hi⟩ :: s.failed_keys) (i + 1)).2 := by
    rw [rotate_key_snd, hk1, hi1, hf1]
  have hidx2 : (rotate_key s1).1.current_key_index =
      (rotateFrom keys (keys.get ⟨i, hi⟩ :: s.failed_keys) (i + 1)).1 := by
    rw [rotate_key_fst_idx, hk1, hi1, hf1]
  rcases Nat.lt_or_ge (i + 1) keys.length with hlt | hge
  · -- a healthy key remains: rotation succeeds
    have hnm2 : keys.get ⟨i + 1, hlt⟩ ∉ keys.get ⟨i, hi⟩ :: s.failed_keys := by
      rw [hfailed1 (i + 1) hlt]; omega
    have hdrop : keys.drop (i + 1) = keys.get ⟨i + 1, hlt⟩ :: keys.drop (i + 2) :=
      List.drop_eq_get_cons hlt
    have hrot : rotateFrom keys (keys.get ⟨i, hi⟩ :: s.failed_keys) (i + 1) = (i + 1, true) := by
      unfold rotateFrom
      rw [hdrop]
      simp only [rotateScan]
      rw [if_neg hnm2]
    refine ⟨(rotate_key s1).1, ?_, ?_, ?_, ?_⟩
    · rw [hh]
      have hb : (rotate_key s1).2 = ((i + 1 < keys.length : Bool)) := by
        rw [hsnd, hrot]
        simp [hlt]
      rw [hb]
    · rw [rotate_key_fst_keys, hk1]
    · rw [hidx2, hrot]
    · intro j hj
      rw [rotate_key_fst_failed, hf1]
      exact hfailed1 j hj
  · -- pool exhausted: rotation fails
    have hrot : rotateFrom keys (keys.get ⟨i, hi⟩ :: s.failed_keys) (i + 1) = (i + 1, false) := by
      unfold rotateFrom
      rw [List.drop_eq_nil_of_le hge]
      rfl
    refine ⟨(rotate_key s1).1, ?_, ?_, ?_, ?_⟩
    · rw [hh]
      have hb : (rotate_key s1).2 = ((i + 1 < keys.length : Bool)) := by
        rw [hsnd, hrot]
        simp
        omega
      rw [hb]
    · rw [rotate_key_fst_keys, hk1]
    · rw [hidx2, hrot]
    · intro j hj
      rw [rotate_key_fst_failed, hf1]
      exact hfailed1 j hj

/-- The all-401 retry loop: with `n` units of fuel left and the pool at
index `i` with exactly the first `i` keys failed, the loop performs `n`
more attempts and fails with the generic gateway error. -/
theorem chatLoop_all401 (keys : List String) (hnd : keys.Nodup) (body : String) :
    ∀ n i attempt s, i + n = keys.length → i < keys.length →
      s.keys = keys → s.current_key_index = i →
      (∀ j (hj : j < keys.length), (keys.get ⟨j, hj⟩ ∈ s.failed_keys ↔ j < i)) →
      (chatLoop (fun _ => .httpError 401 body) s attempt n).1 =
        .error (.runtimeError ("Bytez API error 401: " ++ body)) ∧
      (chatLoop (fun _ => .httpError 401 body) s attempt n).2.1 = n := by
  intro n
  induction n with
  | zero =>
    intro i attempt s hsum hi hk hidx hinv
    omega
  | succ n ih =>
    intro i attempt s hsum hi hk hidx hinv
    obtain ⟨s2, hh, hk2, hi2, hinv2⟩ := handle_error_401_step keys hnd i hi s hk hidx hinv
    rcases Nat.lt_or_ge (i + 1) keys.length with hlt | hge
    · -- rotation succeeded: one more attempt, then recurse
      have hb : ((i + 1 < keys.length : Bool)) = true := by simp [hlt]
      rw [hb] at hh
      have hstep : chatLoop (fun _ => .httpError 401 body) s attempt (n + 1) =
          ((chatLoop (fun _ => .httpError 401 body) s2 (attempt + 1) n).1,
           (chatLoop (fun _ => .httpError 401 body) s2 (attempt + 1) n).2.1 + 1,
           (chatLoop (fun _ => .httpError 401 body) s2 (attempt + 1) n).2.2) := by
        simp only [chatLoop, hh]
      have hrec := ih (i + 1) (attempt + 1) s2 (by omega) hlt hk2 hi2 hinv2
      rw [hstep]
      exact ⟨hrec.1, by rw [hrec.2]⟩
    · -- rotation failed: the generic gateway error is raised now
      have hn0 : n = 0 := by omega
      have hb : ((i + 1 < keys.length : Bool)) = false := by
        simp only [decide_eq_false_iff_not]
        omega
      rw [hb] at hh
      have hstep : chatLoop (fun _ => .httpError 401 body) s attempt (n + 1) =
          (.error (.runtimeError ("Bytez API error 401: " ++ body)), 1, s2) := by
        simp only [chatLoop, hh]
        rfl
      rw [hstep, hn0]
      exact ⟨rfl, rfl⟩

/-- C3 (amended): for a fresh pool of `N ≥ 1` distinct credentials where
every attempt returns HTTP 401, `chat_completions` performs exactly `N`
network attempts and then raises — but the raise is the generic
`RuntimeError("Bytez API error 401: ...")` from the non-retryable
branch, not the dedicated `"All API keys exhausted after retries"`
error, whose branch is unreachable for a non-empty pool.  No attempt is
made after exhaustion. -/
theorem chat_completions_all401_attempts (keys : List String) (body : String)
    (s : KMState) (hne : keys ≠ []) (hnd : keys.Nodup)
    (hk : s.keys = keys) (hidx : s.current_key_index = 0) (hf : s.failed_keys = []) :
    (chat_completions (fun _ => .httpError 401 body) s).1 =
      .error (.runtimeError ("Bytez API error 401: " ++ body)) ∧
    (chat_completions (fun _ => .httpError 401 body) s).2.1 = keys.length := by
  have hlen : 0 < keys.length := List.length_pos.mpr hne
  have hinv : ∀ j (hj : j < keys.length), (keys.get ⟨j, hj⟩ ∈ s.failed_keys ↔ j < 0) := by
    intro j hj
    rw [hf]
    simp
  have h := chatLoop_all401 keys hnd body keys.length 0 0 s (by omega) hlen hk hidx hinv
  unfold chat_completions
  rw [hk]
  exact h

/-- A fresh two-credential pool. -/
def kmFresh2 : KMState where
  keys := ["k1", "k2"]
  current_key_index := 0
  failed_keys := []
  usage_count := fun _ => 0
  error_count := fun _ => 0
  last_rotation_event := none

/-- A second fresh two-credential pool (for the witness). -/
def kmFreshAB : KMState where
  keys := ["a", "b"]
  current_key_index := 0
  failed_keys := []
  usage_count := fun _ => 0
  error_count := fun _ => 0
  last_rotation_event := none

/-- C3 counterexample: two credentials, every attempt 401.  Exactly two
attempts occur, and the raised error is the generic gateway
`RuntimeError` whose message is "Bytez API error 401: ...", not the
dedicated exhausted-pool error named by the claim. -/
theorem chat_completions_all401_counterexample :
    (chat_completions (fun _ => .httpError 401 "bad key") kmFresh2).1 =
      .error (.runtimeError "Bytez API error 401: bad key") ∧
    (chat_completions (fun _ => .httpError 401 "bad key") kmFresh2).1 ≠
      .error (.runtimeError "All API keys exhausted after retries") ∧
    (chat_completions (fun _ => .httpError 401 "bad key") kmFresh2).2.1 = 2 := by
  refine ⟨by decide, by decide, by decide⟩

theorem chat_completions_all401_attempts_witness :
    (chat_completions (fun _ => .httpError 401 "x") kmFreshAB).1 =
      .error (.runtimeError "Bytez API error 401: x") ∧
    (chat_completions (fun _ => .httpError 401 "x") kmFreshAB).2.1 = 2 := by
  have h := chat_completions_all401_attempts ["a", "b"] "x" kmFreshAB
    (by decide) (by decide) rfl rfl rfl
  exact ⟨h.1, h.2⟩

/-! ## sql_executor.py -/

/-- Python `str.upper()`, character-wise (the sources only feed ASCII
SQL text; `Char.toUpper` agrees with Python on ASCII). -/
def pyUpper (s : String) : String := String.mk (s.data.map Char.toUpper)

/-- A regex word character (`\w`): the queries under validation are
ASCII, where Python's `\w` is alphanumerics plus underscore. -/
def isWordChar (c : Char) : Bool := c.isAlphanum || c = '_'

/-- A `\b` boundary against an adjacent character (`none` = string
edge). -/
def boundaryOk : Option Char → Bool
  | some c => !isWordChar c
  | none => true

/-- Does `kw` match at the very start of `s`, with `prev` the character
just before and a word boundary required on both sides?  (All the
keywords consist solely of word characters, for which this is exactly
`\b kw \b`.) -/
def wbHere (kw s : List Char) (prev : Option Char) : Bool :=
  kw.isPrefixOf s && boundaryOk prev && boundaryOk ((s.drop kw.length).head?)

/-- Scan of `re.search`: try the match at every position. -/
def wbScan (kw : List Char) (prev : Option Char) : List Char → Bool
  | [] => wbHere kw [] prev
  | c :: rest => wbHere kw (c :: rest) prev || wbScan kw (some c) rest

/-- `re.search(rf"\b{keyword}\b", s) is not None`. -/
def wordBoundaryMatch (kw s : String) : Bool := wbScan kw.data none s.data

/-- Python `\s` on ASCII text. -/
def pyIsSpace (c : Char) : Bool :=
  c = ' ' || c = '\t' || c = '\n' || c = '\r' || c = '\x0b' || c = '\x0c'

/-- `SELECT\b` at the current position. -/
def selectHere (s : List Char) : Bool :=
  "SELECT".data.isPrefixOf s && boundaryOk ((s.drop 6).head?)

/-- `re.search(r"^\s*SELECT\b", s) is not None`: skip leading
whitespace, then require the select keyword at a word boundary. -/
def startsSelectAux : List Char → Bool
  | [] => false
  | c :: rest => if pyIsSpace c then startsSelectAux rest else selectHere (c :: rest)

/-- `re.search(r"^\s*SELECT\b", s) is not None`. -/
def startsSelect (s : String) : Bool := startsSelectAux s.data

/-- `DANGEROUS_KEYWORDS`.  The source iterates a Python `set` literal,
whose iteration order is unspecified; the model iterates in the
literal's order, which only affects which keyword is reported when
several match. -/
def DANGEROUS_KEYWORDS : List String :=
  ["INSTALL", "LOAD", "COPY", "EXPORT", "ATTACH", "PRAGMA", "CREATE",
   "INSERT", "UPDATE", "DELETE", "DROP", "CALL", "ALTER"]

/-- The rejection message `f"Dangerous keyword '{keyword}' not allowed"`. -/
def dangerousMsg (kw : String) : String :=
  "Dangerous keyword \x27" ++ kw ++ "\x27 not allowed"

/-- `validate_sql`. -/
def validate_sql (sql : String) : Bool × Option String :=
  let sql_upper := pyUpper sql
  match DANGEROUS_KEYWORDS.find? (fun kw => wordBoundaryMatch kw sql_upper) with
  | some kw => (false, some (dangerousMsg kw))
  | none =>
    if startsSelect sql_upper then (true, none)
    else (false, some "Only SELECT statements are allowed")

/-- A query result: `duckdb ... .df()`, kept abstract as column names
plus opaque row records. -/
structure DataFrame where
  columns : List String
  records : List String
deriving DecidableEq, Repr

/-- Environment of `run_sql`: the Supabase download, the temp-file name
allocated by `tempfile`, and the DuckDB execution of the modified
query. -/
structure SqlEnv where
  download : Except PyErr Unit
  tmpName : String
  runQuery : String → Except PyErr DataFrame

/-- `run_sql`.  Validation runs first and raises `ValueError` before
any I/O; then the parquet download, the `transactions` placeholder
substitution, the engine call, and the row cap. -/
def run_sql (env : SqlEnv) (session_id sql : String) (limit_rows : Nat) :
    Except PyErr (DataFrame × String) :=
  match validate_sql sql with
  | (false, msg) => .error (.valueError ("Invalid SQL: " ++ msg.getD "None"))
  | (true, _) =>
    match env.download with
    | .error e => .error (.runtimeError ("Failed to download parquet file: " ++ e.msg))
    | .ok _ =>
      let modified_sql :=
        (sql.replace "FROM transactions" ("FROM \x27" ++ env.tmpName ++ "\x27")).replace
          "from transactions" ("from \x27" ++ env.tmpName ++ "\x27")
      match env.runQuery modified_sql with
      | .error e => .error (.runtimeError ("Query execution failed: " ++ e.msg))
      | .ok df =>
        let df2 :=
          if limit_rows < df.records.length then
            { df with records := df.records.take limit_rows }
          else df
        .ok (df2, "Query returned " ++ toString df2.records.length ++ " rows, " ++
          toString df2.columns.length ++ " columns")

theorem run_sql_invalid (env : SqlEnv) (session_id sql : String) (lim : Nat) (m : String)
    (h : validate_sql sql = (false, some m)) :
    run_sql env session_id sql lim = .error (.valueError ("Invalid SQL: " ++ m)) := by
  unfold run_sql
  rw [h]
  rfl

/-- C5: `validate_sql` rejects (and `run_sql` raises `ValueError` whose
message names the offending keyword) every query containing a dangerous
keyword at a word boundary of its uppercased text; it additionally
rejects every query that does not begin, after optional whitespace,
with `SELECT`; and a query reading `DROP TABLE x` in any
capitalisation is rejected naming `DROP`. -/
theorem validate_sql_rejects_dangerous_and_requires_select :
    (∀ sql, (∃ kw ∈ DANGEROUS_KEYWORDS, wordBoundaryMatch kw (pyUpper sql) = true) →
      ∃ kw, kw ∈ DANGEROUS_KEYWORDS ∧ wordBoundaryMatch kw (pyUpper sql) = true ∧
        validate_sql sql = (false, some (dangerousMsg kw)) ∧
        ∀ env sid lim, run_sql env sid sql lim =
          .error (.valueError ("Invalid SQL: " ++ dangerousMsg kw))) ∧
    (∀ sql, startsSelect (pyUpper sql) = false →
      (validate_sql sql).1 = false ∧
      ∀ env sid lim, ∃ m, run_sql env sid sql lim = .error (.valueError m)) ∧
    (∀ sql, pyUpper sql = "DROP TABLE X" →
      validate_sql sql = (false, some (dangerousMsg "DROP")) ∧
      ∀ env sid lim, run_sql env sid sql lim =
        .error (.valueError ("Invalid SQL: " ++ dangerousMsg "DROP"))) := by
  refine ⟨?_, ?_, ?_⟩
  · intro sql hex
    have hsome : (DANGEROUS_KEYWORDS.find?
        (fun kw => wordBoundaryMatch kw (pyUpper sql))).isSome := by
      rw [List.find?_isSome]
      obtain ⟨kw, hmem, hmatch⟩ := hex
      exact ⟨kw, hmem, hmatch⟩
    obtain ⟨kw0, hfind⟩ := Option.isSome_iff_exists.mp hsome
    have hval : validate_sql sql = (false, some (dangerousMsg kw0)) := by
      simp only [validate_sql, hfind]
    have hp : wordBoundaryMatch kw0 (pyUpper sql) = true := by
      have hp0 := List.find?_some hfind
      simpa using hp0
    refine ⟨kw0, List.mem_of_find?_eq_some hfind, hp, hval, ?_⟩
    intro env sid lim
    exact run_sql_invalid env sid sql lim _ hval
  · intro sql hsel
    cases hfind : DANGEROUS_KEYWORDS.find? (fun kw => wordBoundaryMatch kw (pyUpper sql)) with
    | some kw =>
      have hval : validate_sql sql = (false, some (dangerousMsg kw)) := by
        simp only [validate_sql, hfind]
      exact ⟨by rw [hval], fun env sid lim =>
        ⟨"Invalid SQL: " ++ dangerousMsg kw, run_sql_invalid env sid sql lim _ hval⟩⟩
    | none =>
      have hval : validate_sql sql = (false, some "Only SELECT statements are allowed") := by
        simp only [validate_sql, hfind, hsel]
        rfl
      exact ⟨by rw [hval], fun env sid lim =>
        ⟨"Invalid SQL: " ++ "Only SELECT statements are allowed",
         run_sql_invalid env sid sql lim _ hval⟩⟩
  · intro sql hup
    have hval : validate_sql sql = (false, some (dangerousMsg "DROP")) := by
      unfold validate_sql
      rw [hup]
      decide
    exact ⟨hval, fun env sid lim => run_sql_invalid env sid sql lim _ hval⟩

theorem validate_sql_rejects_dangerous_and_requires_select_witness :
    (∃ kw, kw ∈ DANGEROUS_KEYWORDS ∧
      wordBoundaryMatch kw (pyUpper "SELECT 1; DELETE FROM transactions") = true ∧
      validate_sql "SELECT 1; DELETE FROM transactions" = (false, some (dangerousMsg kw)) ∧
      ∀ env sid lim, run_sql env sid "SELECT 1; DELETE FROM transactions" lim =
        .error (.valueError ("Invalid SQL: " ++ dangerousMsg kw))) ∧
    ((validate_sql "UPDATE t SET x = 1").1 = false) ∧
    validate_sql "drop table x" = (false, some (dangerousMsg "DROP")) :=
  ⟨validate_sql_rejects_dangerous_and_requires_select.1
      "SELECT 1; DELETE FROM transactions" (by decide),
   (validate_sql_rejects_dangerous_and_requires_select.2.1
      "UPDATE t SET x = 1" (by decide)).1,
   (validate_sql_rejects_dangerous_and_requires_select.2.2
      "drop table x" (by decide)).1⟩

/-- C10: the dangerous-keyword scan matches anywhere in the uppercased
query text, including inside quoted string literals: the read-only
query `SELECT 'update' FROM transactions` begins with SELECT yet is
rejected naming UPDATE. -/
theorem validate_sql_matches_inside_string_literals :
    validate_sql "SELECT \x27update\x27 FROM transactions" =
      (false, some "Dangerous keyword \x27UPDATE\x27 not allowed") ∧
    startsSelect (pyUpper "SELECT \x27update\x27 FROM transactions") = true := by
  decide

/-! ## python_executor.py -/

/-- `ALLOWED_MODULES` (a Python `set`, used only through membership). -/
def ALLOWED_MODULES : List String :=
  ["pandas", "numpy", "scipy", "scipy.stats", "math", "statistics", "json"]

/-- `DANGEROUS_BUILTINS`. -/
def DANGEROUS_BUILTINS : List String :=
  ["open", "exec", "eval", "__import__", "compile", "globals", "locals",
   "vars", "dir", "getattr", "setattr", "delattr", "hasattr"]

/-- The fragment of the Python abstract syntax tree the validator
distinguishes: `Import`, `ImportFrom`, `Call`, `Attribute` and `Name`
nodes, plus `module` at the root; every other node kind is `other`,
carrying its child nodes for the generic traversal. -/
inductive PyAst where
  | module (body : List PyAst)
  | importStmt (names : List String)
  | importFrom (mod : Option String)
  | call (func : PyAst) (args : List PyAst)
  | attribute (value : PyAst) (attr : String)
  | name (id : String)
  | other (children : List PyAst)

/-- `alias.name.split(".")[0]` / `node.module.split(".")[0]`: the
prefix before the first dot. -/
def rootModule (n : String) : String := String.mk (n.data.takeWhile (fun c => c ≠ '.'))

/-- `f"Import of '{module}' not allowed"`. -/
def importMsg (m : String) : String := "Import of \x27" ++ m ++ "\x27 not allowed"

/-- `f"Import from '{module}' not allowed"`. -/
def importFromMsg (m : String) : String := "Import from \x27" ++ m ++ "\x27 not allowed"

/-- `f"Call to '{node.func.id}' not allowed"`. -/
def callMsg (id : String) : String := "Call to \x27" ++ id ++ "\x27 not allowed"

/-- `f"Access to private attribute '{node.attr}' not allowed"`. -/
def attrMsg (a : String) : String :=
  "Access to private attribute \x27" ++ a ++ "\x27 not allowed"

mutual

/-- The error list accumulated by `ASTValidator.visit` on a node:
`visit_Import` / `visit_ImportFrom` check and do not descend (their
children carry no nodes of interest), `visit_Call` and
`visit_Attribute` check and then `generic_visit`, and every other node
kind is traversed by `generic_visit` in field order. -/
def visitErrors : PyAst → List String
  | .module body => visitList body
  | .importStmt names =>
    names.filterMap (fun n =>
      let m := rootModule n
      if m ∈ ALLOWED_MODULES then none else some (importMsg m))
  | .importFrom mod =>
    match mod with
    | some n =>
      let m := rootModule n
      if m ∈ ALLOWED_MODULES then [] else [importFromMsg m]
    | none => []
  | .call func args =>
    (match func with
     | .name id => if id ∈ DANGEROUS_BUILTINS then [callMsg id] else []
     | _ => []) ++ (visitErrors func ++ visitList args)
  | .attribute value attr =>
    (if attr.startsWith "_" then [attrMsg attr] else []) ++ visitErrors value
  | .name _ => []
  | .other children => visitList children

/-- `generic_visit` over a list of child nodes. -/
def visitList : List PyAst → List String
  | [] => []
  | t :: ts => visitErrors t ++ visitList ts

end

/-- `validate_python_code`.  `ast.parse` is external (`parse`); a
`SyntaxError` yields the syntax message, otherwise the validator's
errors are joined with "; ". -/
def validate_python_code (parse : String → Except String PyAst) (code : String) :
    Bool × String :=
  match parse code with
  | .error e => (false, "Syntax error: " ++ e)
  | .ok tree =>
    let errs := visitErrors tree
    if errs.isEmpty then (true, "") else (false, String.intercalate "; " errs)

/-- Node `u` lies on the `generic_visit` traversal of `t`. -/
inductive Occurs : PyAst → PyAst → Prop where
  | refl (t : PyAst) : Occurs t t
  | inModule {u t : PyAst} {body : List PyAst} :
      t ∈ body → Occurs u t → Occurs u (.module body)
  | inCallFunc {u func : PyAst} {args : List PyAst} :
      Occurs u func → Occurs u (.call func args)
  | inCallArg {u func t : PyAst} {args : List PyAst} :
      t ∈ args → Occurs u t → Occurs u (.call func args)
  | inAttr {u value : PyAst} {attr : String} :
      Occurs u value → Occurs u (.attribute value attr)
  | inOther {u t : PyAst} {children : List PyAst} :
      t ∈ children → Occurs u t → Occurs u (.other children)

theorem visitErrors_importFrom (mod : Option String) :
    visitErrors (.importFrom mod) =
      (match mod with
       | some n =>
         if rootModule n ∈ ALLOWED_MODULES then [] else [importFromMsg (rootModule n)]
       | none => []) := by
  cases mod <;> rfl

theorem mem_visitList {t : PyAst} {l : List PyAst} (ht : t ∈ l) {e : String}
    (he : e ∈ visitErrors t) : e ∈ visitList l := by
  induction l with
  | nil => cases ht
  | cons hd tl ih =>
    rw [visitList]
    rcases List.mem_cons.mp ht with heq | hmem
    · subst heq
      exact List.mem_append.mpr (Or.inl he)
    · exact List.mem_append.mpr (Or.inr (ih hmem))

theorem visitErrors_call (func : PyAst) (args : List PyAst) :
    visitErrors (.call func args) =
      (match func with
       | .name id => if id ∈ DANGEROUS_BUILTINS then [callMsg id] else []
       | _ => []) ++ (visitErrors func ++ visitList args) := by
  cases func <;> rfl

/-- Every error reported in a subtree is reported for the whole tree:
the validator collects all violations, not only the first. -/
theorem visitErrors_subset {u t : PyAst} (h : Occurs u t) :
    ∀ e ∈ visitErrors u, e ∈ visitErrors t := by
  induction h with
  | refl => exact fun e he => he
  | inModule hmem _ ih =>
    intro e he
    rw [visitErrors]
    exact mem_visitList hmem (ih e he)
  | inCallFunc _ ih =>
    intro e he
    rw [visitErrors_call]
    exact List.mem_append.mpr (Or.inr (List.mem_append.mpr (Or.inl (ih e he))))
  | inCallArg hmem _ ih =>
    intro e he
    rw [visitErrors_call]
    exact List.mem_append.mpr (Or.inr (List.mem_append.mpr (Or.inr (mem_visitList hmem (ih e he)))))
  | inAttr _ ih =>
    intro e he
    rw [visitErrors]
    exact List.mem_append.mpr (Or.inr (ih e he))
  | inOther hmem _ ih =>
    intro e he
    rw [visitErrors]
    exact mem_visitList hmem (ih e he)

/-- A module body consisting only of import statements whose root
modules are all allow-listed. -/
def importsOnlyAllowed (body : List PyAst) : Prop :=
  ∀ st ∈ body,
    (∃ names, st = PyAst.importStmt names ∧ ∀ n ∈ names, rootModule n ∈ ALLOWED_MODULES) ∨
    (∃ mod, st = PyAst.importFrom mod ∧ ∀ n, mod = some n → rootModule n ∈ ALLOWED_MODULES)

theorem importViolation_reported (t : PyAst) (names : List String) (n : String)
    (hocc : Occurs (.importStmt names) t) (hn : n ∈ names)
    (hnot : rootModule n ∉ ALLOWED_MODULES) :
    importMsg (rootModule n) ∈ visitErrors t := by
  apply visitErrors_subset hocc
  rw [visitErrors]
  apply List.mem_filterMap.mpr
  exact ⟨n, hn, by simp [hnot]⟩

theorem callViolation_reported (t : PyAst) (args : List PyAst) (id : String)
    (hocc : Occurs (.call (.name id) args) t) (hid : id ∈ DANGEROUS_BUILTINS) :
    callMsg id ∈ visitErrors t := by
  apply visitErrors_subset hocc
  rw [visitErrors_call]
  apply List.mem_append.mpr
  exact Or.inl (by simp [hid])

theorem attrViolation_reported (t value : PyAst) (attr : String)
    (hocc : Occurs (.attribute value attr) t) (hs : attr.startsWith "_" = true) :
    attrMsg attr ∈ visitErrors t := by
  apply visitErrors_subset hocc
  rw [visitErrors]
  apply List.mem_append.mpr
  exact Or.inl (by simp [hs])

theorem visitList_allowed_nil :
    ∀ (l : List PyAst), importsOnlyAllowed l → visitList l = [] := by
  intro l
  induction l with
  | nil => intro _; rfl
  | cons st ts ih =>
    intro hall
    rw [visitList]
    have hst := hall st (List.mem_cons_self st ts)
    have hts : importsOnlyAllowed ts := fun u hu => hall u (List.mem_cons_of_mem st hu)
    rw [ih hts]
    rcases hst with ⟨names, heq, hns⟩ | ⟨mod, heq, hm⟩
    · subst heq
      rw [visitErrors]
      simp only [List.append_nil]
      apply List.filterMap_eq_nil.mpr
      intro n hn
      simp [hns n hn]
    · subst heq
      rw [visitErrors_importFrom]
      cases mod with
      | none => rfl
      | some n => simp [hm n rfl]

/-- C8: the AST validator reports every violation found anywhere in the
syntax tree — disallowed imports, dangerous builtin calls and
private-attribute accesses — and `validate_python_code` joins them all
into one message (not only the first); a parse tree importing `os` is
rejected with a message naming `os`; and a module consisting only of
allow-listed imports passes validation. -/
theorem ast_validator_reports_all_violations :
    (∀ (t : PyAst) (names : List String) (n : String),
      Occurs (.importStmt names) t → n ∈ names → rootModule n ∉ ALLOWED_MODULES →
      importMsg (rootModule n) ∈ visitErrors t) ∧
    (∀ (t : PyAst) (args : List PyAst) (id : String),
      Occurs (.call (.name id) args) t → id ∈ DANGEROUS_BUILTINS →
      callMsg id ∈ visitErrors t) ∧
    (∀ (t value : PyAst) (attr : String),
      Occurs (.attribute value attr) t → attr.startsWith "_" = true →
      attrMsg attr ∈ visitErrors t) ∧
    (∀ (parse : String → Except String PyAst) (code : String) (t : PyAst)
      (names : List String),
      parse code = .ok t → Occurs (.importStmt names) t → "os" ∈ names →
      validate_python_code parse code = (false, String.intercalate "; " (visitErrors t)) ∧
      importMsg "os" ∈ visitErrors t) ∧
    (∀ (parse : String → Except String PyAst) (code : String) (body : List PyAst),
      parse code = .ok (.module body) → importsOnlyAllowed body →
      validate_python_code parse code = (true, "")) := by
  refine ⟨importViolation_reported, callViolation_reported, attrViolation_reported, ?_, ?_⟩
  · intro parse code t names hp hocc hos
    have hmemos : importMsg "os" ∈ visitErrors t :=
      importViolation_reported t names "os" hocc hos (by decide)
    refine ⟨?_, hmemos⟩
    cases hve : visitErrors t with
    | nil => rw [hve] at hmemos; cases hmemos
    | cons e es =>
      unfold validate_python_code
      rw [hp]
      simp only [hve]
      rfl
  · intro parse code body hp hall
    have hnil : visitList body = [] := visitList_allowed_nil body hall
    unfold validate_python_code
    rw [hp]
    simp only [visitErrors, hnil]
    rfl

/-- A parse oracle returning a module that imports `os`. -/
def parseOs : String → Except String PyAst :=
  fun _ => .ok (.module [.importStmt ["os"]])

/-- A parse oracle returning a module that imports `numpy` only. -/
def parseNumpy : String → Except String PyAst :=
  fun _ => .ok (.module [.importStmt ["numpy"]])

theorem ast_validator_reports_all_violations_witness :
    (validate_python_code parseOs "import os" =
      (false, String.intercalate "; " (visitErrors (.module [.importStmt ["os"]]))) ∧
     importMsg "os" ∈ visitErrors (.module [.importStmt ["os"]])) ∧
    validate_python_code parseNumpy "import numpy" = (true, "") :=
  ⟨ast_validator_reports_all_violations.2.2.2.1 parseOs "import os"
      (.module [.importStmt ["os"]]) ["os"] rfl
      (Occurs.inModule (by simp) (Occurs.refl _)) (by simp),
   ast_validator_reports_all_violations.2.2.2.2 parseNumpy "import numpy"
      [.importStmt ["numpy"]] rfl
      (by
        intro st hst
        have heq : st = PyAst.importStmt ["numpy"] := by simpa using hst
        subst heq
        refine Or.inl ⟨["numpy"], rfl, ?_⟩
        intro n hn
        have hne : n = "numpy" := by simpa using hn
        subst hne
        decide)⟩

/-- Outcome of `subprocess.run(["python", tmp.name], ...)` on the
program text written to the temp file: completion with an exit code and
captured output, `subprocess.TimeoutExpired`, or another exception. -/
inductive ExecOutcome where
  | completed (returncode : Int) (stdout stderr : String)
  | timedOut
  | raised (msg : String)
deriving DecidableEq, Repr

/-- The `results` dict produced by `run_python`: successfully parsed
structured output (payload kept opaque), raw text under the `output`
key, or the empty dict. -/
inductive PyResults where
  | parsed (payload : String)
  | output (raw : String)
  | empty
deriving DecidableEq, Repr

/-- Environment of `run_python`: `ast.parse`, the child-process run of
a given program text, and `json.loads` applied to the captured
standard output. -/
structure PyEnv where
  parse : String → Except String PyAst
  exec : String → ExecOutcome
  loadsOut : String → Option String

/-- Python `str.strip()` (ASCII whitespace). -/
def pyStrip (s : String) : String :=
  String.mk (((s.data.dropWhile pyIsSpace).reverse.dropWhile pyIsSpace).reverse)

/-- `run_python`.  The validated `code` string itself is written to the
temp file and executed (`tmp.write(code)`; `subprocess.run(["python",
tmp.name], ...)`).  The `df` / `result_df` arguments only populate
`safe_locals`, which is built but never passed to the child process, so
they cannot influence the outcome.  A non-zero exit raises a
`RuntimeError` that the enclosing generic `except Exception` clause
immediately re-wraps, doubling the prefix. -/
def run_python (env : PyEnv) (code : String) (df : DataFrame) (timeout_s : Nat) :
    Except PyErr (PyResults × String) :=
  match validate_python_code env.parse code with
  | (false, error_msg) => .error (.valueError ("Invalid Python code: " ++ error_msg))
  | (true, _) =>
    match env.exec code with
    | .timedOut =>
      .error (.runtimeError ("Python execution timed out after " ++ toString timeout_s ++ "s"))
    | .raised m => .error (.runtimeError ("Python execution failed: " ++ m))
    | .completed rc out err =>
      if rc ≠ 0 then
        .error (.runtimeError ("Python execution failed: " ++ ("Execution failed: " ++ err)))
      else
        let output := pyStrip out
        if output = "" then .ok (.empty, "Python execution completed successfully")
        else
          match env.loadsOut output with
          | some payload => .ok (.parsed payload, "Python execution completed successfully")
          | none => .ok (.output output, "Python execution completed successfully")

/-- `create_safe_python_wrapper`: the f-string wrapper around the user
code, verbatim. -/
def create_safe_python_wrapper (code : String) : String :=
  "\nimport pandas as pd\nimport numpy as np\nfrom scipy import stats\nimport json\nimport sys\n\n# User code\n" ++
  code ++
  "\n\n# Output results as JSON\nif \x27results\x27 in locals():\n    print(json.dumps(results))\n"

/-- Modelled from the spec (CodeExecutionSandbox.run): "the code is
wrapped so that a conventional result variable, if assigned by the
code, is serialized to a single line of structured output, then
executed" — i.e. the child process runs `create_safe_python_wrapper
code` instead of `code`.  Stated only for comparison with `run_python`,
which is translated from the source. -/
def run_python_asSpecified (env : PyEnv) (code : String) (df : DataFrame) (timeout_s : Nat) :
    Except PyErr (PyResults × String) :=
  match validate_python_code env.parse code with
  | (false, error_msg) => .error (.valueError ("Invalid Python code: " ++ error_msg))
  | (true, _) =>
    match env.exec (create_safe_python_wrapper code) with
    | .timedOut =>
      .error (.runtimeError ("Python execution timed out after " ++ toString timeout_s ++ "s"))
    | .raised m => .error (.runtimeError ("Python execution failed: " ++ m))
    | .completed rc out err =>
      if rc ≠ 0 then
        .error (.runtimeError ("Python execution failed: " ++ ("Execution failed: " ++ err)))
      else
        let output := pyStrip out
        if output = "" then .ok (.empty, "Python execution completed successfully")
        else
          match env.loadsOut output with
          | some payload => .ok (.parsed payload, "Python execution completed successfully")
          | none => .ok (.output output, "Python execution completed successfully")

/-- An execution environment that answers differently for the raw code
and for its wrapped form, exposing which one `run_python` runs. -/
def pyEnvCE : PyEnv where
  parse := fun _ => .ok (.module [.other []])
  exec := fun p => if p = "results = 1" then .completed 0 "RAW" "" else .completed 0 "ok" ""
  loadsOut := fun _ => none

/-- An empty data frame (the argument is inert in `run_python`). -/
def dfEmpty : DataFrame where
  columns := []
  records := []

/-- C4 counterexample: `run_python` does not execute the wrapped form
of the accepted code — it executes the code string as written.  Under
an environment whose child process returns "RAW" for the raw code and
"ok" for the wrapped code, the run's result is built from "RAW". -/
theorem run_python_unwrapped_counterexample :
    run_python pyEnvCE "results = 1" dfEmpty 10 =
      .ok (.output "RAW", "Python execution completed successfully") ∧
    run_python_asSpecified pyEnvCE "results = 1" dfEmpty 10 =
      .ok (.output "ok", "Python execution completed successfully") ∧
    run_python pyEnvCE "results = 1" dfEmpty 10 ≠
      run_python_asSpecified pyEnvCE "results = 1" dfEmpty 10 := by
  refine ⟨by decide, by decide, by decide⟩

/-- C4 (amended): `run_python` executes the submitted code string
as-is: its outcome depends on the child-process execution of the code
text itself, never on the execution of `create_safe_python_wrapper
code` (which only the HTTP route applies, before calling
`run_python`). -/
theorem run_python_exec_depends_only_on_code (env : PyEnv) (f : String → ExecOutcome)
    (code : String) (df : DataFrame) (ts : Nat) (h : f code = env.exec code) :
    run_python { env with exec := f } code df ts = run_python env code df ts := by
  unfold run_python
  simp only [h]

/-- A benign environment for the witness. -/
def pyEnvW : PyEnv where
  parse := fun _ => .ok (.module [])
  exec := fun _ => .completed 0 "" ""
  loadsOut := fun _ => none

theorem run_python_exec_depends_only_on_code_witness :
    run_python
        { pyEnvW with
          exec := fun p => if p = "x = 1" then .completed 0 "" "" else .timedOut }
        "x = 1" dfEmpty 10 =
      run_python pyEnvW "x = 1" dfEmpty 10 :=
  run_python_exec_depends_only_on_code pyEnvW
    (fun p => if p = "x = 1" then .completed 0 "" "" else .timedOut)
    "x = 1" dfEmpty 10 (by decide)

/-! ## orchestrator.py -/

/-- The four agents `stream_chat` invokes. -/
inductive AgentName where
  | orchestrator
  | sql_agent
  | python_agent
  | composer
deriving DecidableEq, Repr

/-- The JSON-object shape the pipeline reads back from agent output:
`classification` for routing, `finding`/`confidence` for insights, and
the `text` fallback body. -/
structure JsonObj where
  classification : Option String
  text : Option String
  finding : Option String
  confidence : Option Nat
deriving DecidableEq, Repr

/-- The `sql_result` dict assembled by `stream_chat`. -/
structure SqlResultData where
  query : String
  rows : Nat
  columns : List String
  summary : String
  data : List String
deriving DecidableEq, Repr

/-- One event yielded by `stream_chat` (the `timestamp`-free content of
each dict; `status` events carry their `message` and `data.stage`). -/
inductive Event where
  | status (message : String) (stage : String)
  | orchestrator_result (data : String)
  | sql_result (data : SqlResultData)
  | python_result (code : String) (results : PyResults) (summary : String)
  | error (message : String)
  | final_response (data : JsonObj)
deriving DecidableEq, Repr

/-- `session["data_dna"]`: only `columns` and `accumulated_insights`
are read, both flowing into externally-handled payloads. -/
structure DataDna where
  columns : List String
  accumulated_insights : List String
deriving DecidableEq, Repr

/-- One row of the `sessions` table. -/
structure SessionRec where
  data_dna : DataDna
deriving DecidableEq, Repr

/-- Environment of one `stream_chat` run: every external call it makes,
in call order.  `chat` answers each agent invocation (the Bytez
network call inside `_run_agent`), `jsonLoads` is `json.loads` (`none`
= `JSONDecodeError`), and the Supabase insert/update outcomes close the
run. -/
structure OrchEnv where
  sessionQuery : Except PyErr (List SessionRec)
  chat : AgentName → Except PyErr BytezResp
  jsonLoads : String → Option JsonObj
  sqlEnv : SqlEnv
  pyEnv : PyEnv
  insertMessage : Except PyErr Unit
  updateSession : Except PyErr Unit

/-- The body of `_run_agent`: `response["choices"][0]["message"]["content"]`
if a non-empty `choices` is present, else `""`. -/
def extract_content (resp : BytezResp) : String :=
  match resp.choices with
  | some (c :: _) => c.message.content
  | _ => ""

/-- `Orchestrator._run_agent`. -/
def run_agent (env : OrchEnv) (agent : AgentName) : Except PyErr String :=
  match env.chat agent with
  | .error e => .error e
  | .ok resp => .ok (extract_content resp)

/-- Python `response.find(sub, start)` scanning the suffix from `i`
(used only with `start` within bounds): the first index at which `sub`
occurs, or `none` for `-1`. -/
def findFromAux (sub : List Char) (i : Nat) : List Char → Option Nat
  | [] => if sub.isPrefixOf ([] : List Char) then some i else none
  | c :: rest =>
    if sub.isPrefixOf (c :: rest) then some i
    else findFromAux sub (i + 1) rest

/-- `s.find(sub, start)` as an `Option Nat`. -/
def pyFindFrom (s sub : String) (start : Nat) : Option Nat :=
  findFromAux sub.data start (s.data.drop start)

/-- `s[start:stop]` (indices within bounds in all call sites). -/
def pySlice (s : String) (start stop : Nat) : String :=
  String.mk ((s.data.drop start).take (stop - start))

/-- `Orchestrator._extract_sql`: prefer a ```sql fenced block, else a
generic fenced block whose content starts with SELECT, else the first
line from the first occurrence of SELECT, else nothing.  A fenced block
whose closing fence is missing or not beyond the opener falls through
to the next strategy, as in the source. -/
def extract_sql (response : String) : Option String :=
  let s1 :=
    if (pyFindFrom response "```sql" 0).isSome then
      let start := (pyFindFrom response "```sql" 0).getD 0 + 6
      match pyFindFrom response "```" start with
      | some e =>
        if start < e then some (pyStrip (pySlice response start e)) else none
      | none => none
    else none
  match s1 with
  | some r => some r
  | none =>
    let s2 :=
      if (pyFindFrom response "```" 0).isSome then
        let start := (pyFindFrom response "```" 0).getD 0 + 3
        match pyFindFrom response "```" start with
        | some e =>
          if start < e then
            let sql := pyStrip (pySlice response start e)
            if "SELECT".data.isPrefixOf (pyUpper sql).data then some sql else none
          else none
        | none => none
      else none
    match s2 with
    | some r => some r
    | none =>
      if (pyFindFrom (pyUpper response) "SELECT" 0).isSome then
        let start := (pyFindFrom (pyUpper response) "SELECT" 0).getD 0
        let stop :=
          match pyFindFrom response "\n" start with
          | some e => e
          | none => response.data.length
        some (pyStrip (pySlice response start stop))
      else none

/-- `Orchestrator._extract_python`: prefer a ```python fenced block,
else any fenced block. -/
def extract_python (response : String) : Option String :=
  let s1 :=
    if (pyFindFrom response "```python" 0).isSome then
      let start := (pyFindFrom response "```python" 0).getD 0 + 9
      match pyFindFrom response "```" start with
      | some e =>
        if start < e then some (pyStrip (pySlice response start e)) else none
      | none => none
    else none
  match s1 with
  | some r => some r
  | none =>
    if (pyFindFrom response "```" 0).isSome then
      let start := (pyFindFrom response "```" 0).getD 0 + 3
      match pyFindFrom response "```" start with
      | some e =>
        if start < e then some (pyStrip (pySlice response start e)) else none
      | none => none
    else none

/-- Events emitted so far paired with the continuation's result: the
shape of a `stream_chat` segment inside the top-level `try`. -/
abbrev StepR (α : Type) := List Event × Except PyErr α

/-- Sequencing of two segments: the first segment's events are emitted;
its exception, if any, aborts the rest (propagating to the top-level
handler). -/
def stepThen {α β : Type} (r : StepR α) (f : α → StepR β) : StepR β :=
  match r with
  | (evs, .ok a) =>
    let r2 := f a
    (evs ++ r2.1, r2.2)
  | (evs, .error e) => (evs, .error e)

/-- Stage 1: the `status loading` event, then the session lookup; an
empty result set raises `ValueError(f"Session {session_id} not found")`. -/
def stage_load (env : OrchEnv) (session_id : String) : StepR DataDna :=
  ([.status "Loading dataset profile..." "loading"],
   match env.sessionQuery with
   | .error e => .error e
   | .ok [] => .error (.valueError ("Session " ++ session_id ++ " not found"))
   | .ok (sess :: _) => .ok sess.data_dna)

/-- The classification routing value: `json.loads` of the orchestrator
agent's output, defaulting to EXPLAIN_ONLY on parse failure or a
missing key. -/
def queryTypeOf (env : OrchEnv) (classification : String) : String :=
  match env.jsonLoads classification with
  | some obj => obj.classification.getD "EXPLAIN_ONLY"
  | none => "EXPLAIN_ONLY"

/-- `pd.DataFrame(sql_result["data"])` — inert in `run_python` (the
`safe_locals` dict it lands in is never passed to the child process). -/
def dfOfRecords (records : List String) : DataFrame where
  columns := []
  records := records

/-- The guarded `run_sql` call of the QUERY stage: nothing happens when
no SQL could be extracted; an execution failure is caught and degrades
to an `error` event with `sql_result` left unset. -/
def sql_exec_step (env : OrchEnv) (session_id : String) :
    Option String → StepR (Option SqlResultData)
  | some q =>
    match run_sql env.sqlEnv session_id q 500 with
    | .ok (df, sql_summary) =>
      let r : SqlResultData :=
        { query := q
          rows := df.records.length
          columns := df.columns
          summary := sql_summary
          data := df.records.take 10 }
      ([.sql_result r], .ok (some r))
    | .error e => ([.error ("SQL execution failed: " ++ e.msg)], .ok none)
  | none => ([], .ok none)

/-- Stage 3 (QUERY): runs iff the classification routes through SQL.
Generation failure aborts the pipeline. -/
def sql_stage (env : OrchEnv) (session_id query_type : String) :
    StepR (Option SqlResultData) :=
  if query_type = "SQL_ONLY" ∨ query_type = "SQL_THEN_PY" then
    stepThen ([.status "Generating SQL query..." "sql_generation"],
              run_agent env .sql_agent) (fun sql_query =>
    stepThen ([.status "Executing SQL query..." "sql_execution"],
              .ok (extract_sql sql_query))
      (sql_exec_step env session_id))
  else ([], .ok none)

/-- The guarded `run_python` call of the CODE stage on the extracted
code; failures degrade to an `error` event like the QUERY stage. -/
def py_exec_run (env : OrchEnv) (r : SqlResultData) :
    Option String → StepR (Option PyResults)
  | some python_to_run =>
    match run_python env.pyEnv python_to_run (dfOfRecords r.data) 10 with
    | .ok (python_result, py_summary) =>
      ([.python_result python_to_run python_result py_summary], .ok (some python_result))
    | .error e => ([.error ("Python execution failed: " ++ e.msg)], .ok none)
  | none => ([], .ok none)

/-- Extraction plus guarded execution for the CODE stage. -/
def py_exec_step (env : OrchEnv) (r : SqlResultData) (python_code : String) :
    StepR (Option PyResults) :=
  py_exec_run env r (extract_python python_code)

/-- Stage 4 (CODE): runs iff the classification routes through Python
AND a prior SQL result exists. -/
def py_stage (env : OrchEnv) (query_type : String) :
    Option SqlResultData → StepR (Option PyResults)
  | some r =>
    if query_type = "PY_ONLY" ∨ query_type = "SQL_THEN_PY" then
      stepThen ([.status "Running Python analysis..." "python_execution"],
                run_agent env .python_agent) (py_exec_step env r)
    else ([], .ok none)
  | none => ([], .ok none)

/-- Stage 6 (PERSIST): insert the assistant message; then, iff the
composed object has a `finding`, append the accumulated insight via the
session update.  Both writes can raise, aborting to the top-level
handler. -/
def persist (env : OrchEnv) (response_obj : JsonObj) : Except PyErr Unit :=
  match env.insertMessage with
  | .error e => .error e
  | .ok _ =>
    match response_obj.finding with
    | some _ => env.updateSession
    | none => .ok ()

/-- The body of the top-level `try` of `stream_chat`: stages in order,
returning the composed response on success. -/
def tryBody (env : OrchEnv) (session_id : String) : StepR JsonObj :=
  stepThen (stage_load env session_id) (fun _data_dna =>
  stepThen ([.status "Analyzing query..." "orchestrating"],
            run_agent env .orchestrator) (fun classification =>
  stepThen ([.orchestrator_result classification],
            .ok (queryTypeOf env classification)) (fun query_type =>
  stepThen (sql_stage env session_id query_type) (fun sql_result =>
  stepThen (py_stage env query_type sql_result) (fun _python_result =>
  stepThen ([.status "Composing response..." "composition"],
            run_agent env .composer) (fun final_response =>
  let response_obj : JsonObj :=
    match env.jsonLoads final_response with
    | some obj => obj
    | none =>
      { classification := none, text := some final_response
        finding := none, confidence := none }
  stepThen (([] : List Event), persist env response_obj) (fun _ =>
  ([.final_response response_obj], .ok response_obj))))))))

/-- `Orchestrator.stream_chat`: the event sequence of one run.
`chat_id` and `history` are carried but, as in the source, only feed
externally-handled payloads (`history` is never read at all).  Any
exception escaping the `try` body is emitted as a terminal `error`
event. -/
def emitStream (r : StepR JsonObj) : List Event :=
  match r.2 with
  | .ok _ => r.1
  | .error e => r.1 ++ [.error ("Orchestration failed: " ++ e.msg)]

/-- See `emitStream` and `tryBody`. -/
def stream_chat (env : OrchEnv) (chat_id session_id message : String)
    (history : List String) : List Event :=
  emitStream (tryBody env session_id)

/-- Is this event one of the two stream-terminating kinds? -/
def isTerminalEvent : Event → Bool
  | .final_response _ => true
  | .error _ => true
  | _ => false

/-- Is this event a `final_response`? -/
def isFinalEvent : Event → Bool
  | .final_response _ => true
  | _ => false

/-- Number of `final_response` events in a segment. -/
def countFinal (l : List Event) : Nat := l.countP isFinalEvent

theorem countFinal_append (a b : List Event) :
    countFinal (a ++ b) = countFinal a + countFinal b :=
  List.countP_append isFinalEvent a b

theorem stepThen_no_final {α β : Type} (r : StepR α) (f : α → StepR β)
    (hr : countFinal r.1 = 0) (hf : ∀ a, countFinal (f a).1 = 0) :
    countFinal (stepThen r f).1 = 0 := by
  rcases r with ⟨evs, res⟩
  have hr2 : countFinal evs = 0 := hr
  cases res with
  | ok a =>
    show countFinal (evs ++ (f a).1) = 0
    rw [countFinal_append, hr2, hf a]
  | error e => exact hr2

theorem sql_stage_no_final (env : OrchEnv) (sid qt : String) :
    countFinal (sql_stage env sid qt).1 = 0 := by
  unfold sql_stage
  by_cases hq : qt = "SQL_ONLY" ∨ qt = "SQL_THEN_PY"
  · rw [if_pos hq]
    refine stepThen_no_final _ _ rfl ?_
    intro a
    refine stepThen_no_final _ _ rfl ?_
    intro b
    cases b with
    | none => rfl
    | some q =>
      simp only [sql_exec_step]
      cases hrs : run_sql env.sqlEnv sid q 500 with
      | ok v =>
        obtain ⟨df, sql_summary⟩ := v
        rfl
      | error e => rfl
  · rw [if_neg hq]
    rfl

theorem py_stage_no_final (env : OrchEnv) (qt : String) (sr : Option SqlResultData) :
    countFinal (py_stage env qt sr).1 = 0 := by
  cases sr with
  | none => rfl
  | some r =>
    simp only [py_stage]
    by_cases hq : qt = "PY_ONLY" ∨ qt = "SQL_THEN_PY"
    · rw [if_pos hq]
      refine stepThen_no_final _ _ rfl ?_
      intro a
      unfold py_exec_step
      cases hx : extract_python a with
      | none => rfl
      | some code =>
        simp only [py_exec_run]
        cases hrp : run_python env.pyEnv code (dfOfRecords r.data) 10 with
        | ok v =>
          obtain ⟨pr, ps⟩ := v
          rfl
        | error e => rfl
    · rw [if_neg hq]
      rfl

/-- A pipeline segment that, whenever it completes, has just emitted
the matching `final_response` as its last event (and exactly one), and
that emits no `final_response` when it aborts with an exception. -/
def EndsFinal (p : StepR JsonObj) : Prop :=
  (∀ x, p.2 = .ok x → p.1.getLast? = some (.final_response x) ∧ countFinal p.1 = 1) ∧
  (∀ e, p.2 = .error e → countFinal p.1 = 0)

theorem stepThen_endsFinal {α : Type} (r : StepR α) (f : α → StepR JsonObj)
    (hr : countFinal r.1 = 0) (hf : ∀ a, EndsFinal (f a)) :
    EndsFinal (stepThen r f) := by
  rcases r with ⟨evs, res⟩
  have hr2 : countFinal evs = 0 := hr
  cases res with
  | ok a =>
    constructor
    · intro x hx
      have hx2 : (f a).2 = .ok x := hx
      obtain ⟨hlast, hcount⟩ := (hf a).1 x hx2
      constructor
      · show (evs ++ (f a).1).getLast? = some (.final_response x)
        rw [List.getLast?_append, hlast]
        rfl
      · show countFinal (evs ++ (f a).1) = 1
        rw [countFinal_append, hr2, hcount]
    · intro e he
      have he2 : (f a).2 = .error e := he
      have hcount := (hf a).2 e he2
      show countFinal (evs ++ (f a).1) = 0
      rw [countFinal_append, hr2, hcount]
  | error e =>
    constructor
    · intro x hx
      cases hx
    · intro e2 he
      exact hr2

theorem tryBody_endsFinal (env : OrchEnv) (session_id : String) :
    EndsFinal (tryBody env session_id) := by
  unfold tryBody
  refine stepThen_endsFinal _ _ rfl ?_
  intro _data_dna
  refine stepThen_endsFinal _ _ rfl ?_
  intro classification
  refine stepThen_endsFinal _ _ rfl ?_
  intro query_type
  refine stepThen_endsFinal _ _ (sql_stage_no_final env session_id query_type) ?_
  intro sql_result
  refine stepThen_endsFinal _ _ (py_stage_no_final env query_type sql_result) ?_
  intro _python_result
  refine stepThen_endsFinal _ _ rfl ?_
  intro final_response
  refine stepThen_endsFinal _ _ rfl ?_
  intro _u
  constructor
  · intro x hx
    cases hx
    exact ⟨rfl, rfl⟩
  · intro e he
    exact Except.noConfusion he

theorem emitStream_terminal (r : StepR JsonObj) (h : EndsFinal r) :
    (∃ e, (emitStream r).getLast? = some e ∧ isTerminalEvent e = true) ∧
    countFinal (emitStream r) ≤ 1 := by
  rcases r with ⟨evs, res⟩
  cases res with
  | ok x =>
    obtain ⟨hlast, hcount⟩ := h.1 x rfl
    have hc2 : countFinal evs = 1 := hcount
    refine ⟨⟨Event.final_response x, ?_, rfl⟩, ?_⟩
    · exact hlast
    · show countFinal evs ≤ 1
      omega
  | error e =>
    have hcount : countFinal evs = 0 := h.2 e rfl
    constructor
    · refine ⟨Event.error ("Orchestration failed: " ++ e.msg), ?_, rfl⟩
      show (evs ++ [Event.error ("Orchestration failed: " ++ e.msg)]).getLast? =
        some (Event.error ("Orchestration failed: " ++ e.msg))
      rw [List.getLast?_append]
      rfl
    · show countFinal (evs ++ [Event.error ("Orchestration failed: " ++ e.msg)]) ≤ 1
      rw [countFinal_append, hcount]
      have h1 : countFinal [Event.error ("Orchestration failed: " ++ e.msg)] = 0 := rfl
      omega

/-- C1: every `stream_chat` run emits a non-empty event sequence whose
last event is terminal — a `final_response` or an `error` — and emits
`final_response` at most once; the stream never ends without one of the
two.  (Degraded sub-steps may yield non-terminal `error` events
mid-stream; the terminal event is the last one.) -/
theorem stream_chat_always_terminal (env : OrchEnv) (chat_id session_id message : String)
    (history : List String) :
    (∃ e, (stream_chat env chat_id session_id message history).getLast? = some e ∧
      isTerminalEvent e = true) ∧
    countFinal (stream_chat env chat_id session_id message history) ≤ 1 := by
  unfold stream_chat
  exact emitStream_terminal (tryBody env session_id) (tryBody_endsFinal env session_id)

/-- C2 (amended): when the PERSIST stage's store write raises — the
assistant-message insert, or the profile update performed when the
composed response carries a finding — the pipeline does NOT emit
`final_response`: the exception reaches the top-level handler, which
ends the stream with a terminal `error` event, and the already-computed
composed response is not delivered.  (Stated on the EXPLAIN_ONLY route:
classifier output that fails to parse.) -/
theorem stream_chat_persist_failure_emits_error (env : OrchEnv)
    (chat_id session_id message : String) (history : List String)
    (sess : SessionRec) (rest : List SessionRec) (r1 r2 : BytezResp)
    (h1 : env.sessionQuery = .ok (sess :: rest))
    (h2 : env.chat .orchestrator = .ok r1)
    (h3 : env.jsonLoads (extract_content r1) = none)
    (h4 : env.chat .composer = .ok r2) :
    (∀ e, env.insertMessage = .error e →
      stream_chat env chat_id session_id message history =
        [.status "Loading dataset profile..." "loading",
         .status "Analyzing query..." "orchestrating",
         .orchestrator_result (extract_content r1),
         .status "Composing response..." "composition",
         .error ("Orchestration failed: " ++ e.msg)] ∧
      countFinal (stream_chat env chat_id session_id message history) = 0) ∧
    (∀ obj e, env.insertMessage = .ok () →
      env.jsonLoads (extract_content r2) = some obj → obj.finding.isSome →
      env.updateSession = .error e →
      stream_chat env chat_id session_id message history =
        [.status "Loading dataset profile..." "loading",
         .status "Analyzing query..." "orchestrating",
         .orchestrator_result (extract_content r1),
         .status "Composing response..." "composition",
         .error ("Orchestration failed: " ++ e.msg)] ∧
      countFinal (stream_chat env chat_id session_id message history) = 0) := by
  have hload : stage_load env session_id =
      ([.status "Loading dataset profile..." "loading"], .ok sess.data_dna) := by
    simp only [stage_load, h1]
  have hrunA : run_agent env .orchestrator = .ok (extract_content r1) := by
    simp only [run_agent, h2]
  have hrunC : run_agent env .composer = .ok (extract_content r2) := by
    simp only [run_agent, h4]
  have hqt : queryTypeOf env (extract_content r1) = "EXPLAIN_ONLY" := by
    simp only [queryTypeOf, h3]
  have hsql : sql_stage env session_id "EXPLAIN_ONLY" = ([], .ok none) := by
    simp only [sql_stage]
    rw [if_neg (by decide)]
  have hpy : py_stage env "EXPLAIN_ONLY" none = ([], .ok none) := rfl
  constructor
  · intro e he
    have hper : ∀ obj : JsonObj, persist env obj = .error e := by
      intro obj
      simp only [persist, he]
    have htb : tryBody env session_id =
        ([.status "Loading dataset profile..." "loading",
          .status "Analyzing query..." "orchestrating",
          .orchestrator_result (extract_content r1),
          .status "Composing response..." "composition"], .error e) := by
      unfold tryBody
      rw [hload]
      simp only [stepThen, hrunA, hqt, hsql, hpy, hrunC, hper]
      simp
    have hstream : stream_chat env chat_id session_id message history =
        [.status "Loading dataset profile..." "loading",
         .status "Analyzing query..." "orchestrating",
         .orchestrator_result (extract_content r1),
         .status "Composing response..." "composition",
         .error ("Orchestration failed: " ++ e.msg)] := by
      unfold stream_chat emitStream
      rw [htb]
      rfl
    exact ⟨hstream, by rw [hstream]; rfl⟩
  · intro obj e hins hobj hfind hupd
    obtain ⟨f, hf⟩ := Option.isSome_iff_exists.mp hfind
    have hper : persist env obj = .error e := by
      simp only [persist, hins, hf, hupd]
    have htb : tryBody env session_id =
        ([.status "Loading dataset profile..." "loading",
          .status "Analyzing query..." "orchestrating",
          .orchestrator_result (extract_content r1),
          .status "Composing response..." "composition"], .error e) := by
      unfold tryBody
      rw [hload]
      simp only [stepThen, hrunA, hqt, hsql, hpy, hrunC, hobj, hper]
      simp
    have hstream : stream_chat env chat_id session_id message history =
        [.status "Loading dataset profile..." "loading",
         .status "Analyzing query..." "orchestrating",
         .orchestrator_result (extract_content r1),
         .status "Composing response..." "composition",
         .error ("Orchestration failed: " ++ e.msg)] := by
      unfold stream_chat emitStream
      rw [htb]
      rfl
    exact ⟨hstream, by rw [hstream]; rfl⟩

/-- A trivial query-execution environment. -/
def sqlEnvTriv : SqlEnv where
  download := .ok ()
  tmpName := "tmp.parquet"
  runQuery := fun _ => .ok { columns := [], records := [] }

/-- A run whose only failure is the assistant-message insert. -/
def envPersistFail : OrchEnv where
  sessionQuery := .ok [{ data_dna := { columns := [], accumulated_insights := [] } }]
  chat := fun _ => .ok { choices := none }
  jsonLoads := fun _ => none
  sqlEnv := sqlEnvTriv
  pyEnv := pyEnvW
  insertMessage := .error (.runtimeError "boom")
  updateSession := .ok ()

/-- C2 counterexample: with every stage succeeding until the PERSIST
insert raises, the stream emits no `final_response` at all and ends
with the terminal `error` event — the already-composed response is not
delivered, contradicting the claim. -/
theorem stream_chat_persist_failure_counterexample :
    countFinal (stream_chat envPersistFail "c" "s" "m" []) = 0 ∧
    (stream_chat envPersistFail "c" "s" "m" []).getLast? =
      some (.error "Orchestration failed: boom") := by
  refine ⟨by decide, by decide⟩

theorem stream_chat_persist_failure_emits_error_witness :
    stream_chat envPersistFail "c" "s" "m" [] =
      [.status "Loading dataset profile..." "loading",
       .status "Analyzing query..." "orchestrating",
       .orchestrator_result "",
       .status "Composing response..." "composition",
       .error "Orchestration failed: boom"] ∧
    countFinal (stream_chat envPersistFail "c" "s" "m" []) = 0 :=
  (stream_chat_persist_failure_emits_error envPersistFail "c" "s" "m" []
      { data_dna := { columns := [], accumulated_insights := [] } } []
      { choices := none } { choices := none } rfl rfl rfl rfl).1
    (.runtimeError "boom") rfl
